import Mathlib

/-!
Verification of the fuzzy traffic-light controller repository.

The fuzzy decision engine configuration (membership-function breakpoints,
rule table, input clamping) is embedded from
`src/fuzzy_traffic_controller.py`; the phase sequencer and sensor
aggregation are embedded from `src/traffic_simulation.py`.  The Mamdani
inference internals (min-AND, max aggregation, centroid defuzzification
at resolution 1 with a midpoint fallback) are delegated by the source to
the external `skfuzzy` library, which is not part of the repository; those
stages are modelled from the specification (§4.1).  All numeric values are
rationals, so every computation here is exact.
-/

namespace FuzzyTraffic

/-- Triangular membership function, following the `skfuzzy.trimf`
piecewise-linear shape for breakpoints `a ≤ b ≤ c`: value 1 at the peak
`b`, linear on `(a,b)` and `(b,c)`, and 0 outside `[a,c]`. -/
def trimf (a b c x : ℚ) : ℚ :=
  if x = b then 1
  else if a < x ∧ x < b then (x - a) / (b - a)
  else if b < x ∧ x < c then (c - x) / (c - b)
  else 0

/-- Input clamping for queue length, from
`queue_len = max(0, min(50, queue_len))` (fuzzy_traffic_controller.py:90). -/
def clampQueue (x : ℚ) : ℚ := max 0 (min 50 x)

/-- Input clamping for waiting time, from
`wait_time = max(0, min(300, wait_time))` (fuzzy_traffic_controller.py:91). -/
def clampWait (x : ℚ) : ℚ := max 0 (min 300 x)

/-- Membership `queue_length` label low: `trimf(universe, [0, 0, 15])`. -/
def queueLow (q : ℚ) : ℚ := trimf 0 0 15 q

/-- Membership `queue_length` label medium: `trimf(universe, [10, 25, 40])`. -/
def queueMedium (q : ℚ) : ℚ := trimf 10 25 40 q

/-- Membership `queue_length` label high: `trimf(universe, [35, 50, 50])`. -/
def queueHigh (q : ℚ) : ℚ := trimf 35 50 50 q

/-- Membership `waiting_time` label short: `trimf(universe, [0, 0, 100])`. -/
def waitShort (w : ℚ) : ℚ := trimf 0 0 100 w

/-- Membership `waiting_time` label medium: `trimf(universe, [60, 150, 240])`. -/
def waitMedium (w : ℚ) : ℚ := trimf 60 150 240 w

/-- Membership `waiting_time` label long: `trimf(universe, [200, 300, 300])`. -/
def waitLong (w : ℚ) : ℚ := trimf 200 300 300 w

/-- Membership `green_time` label short: `trimf(universe, [10, 10, 30])`. -/
def greenShortMF (z : ℚ) : ℚ := trimf 10 10 30 z

/-- Membership `green_time` label medium: `trimf(universe, [25, 50, 75])`. -/
def greenMediumMF (z : ℚ) : ℚ := trimf 25 50 75 z

/-- Membership `green_time` label long: `trimf(universe, [60, 90, 90])`. -/
def greenLongMF (z : ℚ) : ℚ := trimf 60 90 90 z

/-- Aggregated strength of output label `short`: the max over the firing
strengths (min-AND of antecedent degrees) of the rules whose consequent is
the `green_time` label short — rules 1 and 2 of `create_rules`. -/
def strengthShort (q w : ℚ) : ℚ :=
  max (min (queueLow q) (waitShort w)) (min (queueLow q) (waitMedium w))

/-- Aggregated strength of output label `medium`: rules 3, 4, 5 and 7 of
`create_rules`. -/
def strengthMedium (q w : ℚ) : ℚ :=
  max (max (min (queueLow q) (waitLong w)) (min (queueMedium q) (waitShort w)))
    (max (min (queueMedium q) (waitMedium w)) (min (queueHigh q) (waitShort w)))

/-- Aggregated strength of output label `long`: rules 6, 8 and 9 of
`create_rules`. -/
def strengthLong (q w : ℚ) : ℚ :=
  max (min (queueMedium q) (waitLong w))
    (max (min (queueHigh q) (waitMedium w)) (min (queueHigh q) (waitLong w)))

/-- Modelled from the spec: Mamdani aggregation (§4.1 steps 2-3), the
inference step the source delegates to `skfuzzy.control`.  Each output
membership function is clipped (min) at its aggregated rule strength and
the three clipped sets are combined pointwise by max. -/
def aggregatedMF (q w z : ℚ) : ℚ :=
  max (min (strengthShort q w) (greenShortMF z))
    (max (min (strengthMedium q w) (greenMediumMF z))
      (min (strengthLong q w) (greenLongMF z)))

/-- The `green_time` universe `np.arange(10, 91, 1)`: the 81 integer points
10, 11, …, 90. -/
def greenUniverse : List ℚ :=
  [10, 11, 12, 13, 14, 15, 16, 17, 18, 19, 20, 21, 22, 23, 24, 25, 26, 27,
   28, 29, 30, 31, 32, 33, 34, 35, 36, 37, 38, 39, 40, 41, 42, 43, 44, 45,
   46, 47, 48, 49, 50, 51, 52, 53, 54, 55, 56, 57, 58, 59, 60, 61, 62, 63,
   64, 65, 66, 67, 68, 69, 70, 71, 72, 73, 74, 75, 76, 77, 78, 79, 80, 81,
   82, 83, 84, 85, 86, 87, 88, 89, 90]

/-- Modelled from the spec: centroid defuzzification over the `green_time`
universe at resolution 1 (§4.1 step 4), the stage the source delegates to
the external `skfuzzy` library.  If the aggregated membership is
identically zero the engine returns the midpoint of the universe `[10,90]`
instead of dividing by zero. -/
def defuzzCentroid (m : ℚ → ℚ) : ℚ :=
  let den := (greenUniverse.map m).sum
  if den = 0 then 50 else (greenUniverse.map (fun z => z * m z)).sum / den

/-- Function `FuzzyTrafficController.compute_green_time`
(fuzzy_traffic_controller.py:79-97): clamp both inputs to their universes,
then run the fuzzy inference and defuzzify. -/
def compute_green_time (q w : ℚ) : ℚ :=
  defuzzCentroid (aggregatedMF (clampQueue q) (clampWait w))

/-- The mutable state of a `ControlSystemSimulation` object as
`compute_green_time` touches it: the two entries of `controller.input`
written on lines 93-94 and the `controller.output` entry written by
`compute()` on line 95.  A freshly constructed controller
(`setup_fuzzy_system`, line 54) has none of them set. -/
structure ControllerState where
  queueInput : Option ℚ
  waitInput : Option ℚ
  greenOutput : Option ℚ

/-- Controller state right after `setup_fuzzy_system`. -/
def initialControllerState : ControllerState := ⟨none, none, none⟩

/-- Function `compute_green_time` with the mutable state of the simulation
object made
explicit: clamp the inputs, store them, run `compute()`, store and return
the output (fuzzy_traffic_controller.py:90-97). -/
def computeGreenTimeStateful (_s : ControllerState) (q w : ℚ) : ℚ × ControllerState :=
  let q1 := clampQueue q
  let w1 := clampWait w
  let out := defuzzCentroid (aggregatedMF q1 w1)
  (out, { queueInput := some q1, waitInput := some w1, greenOutput := some out })

/-- A vehicle on a lane as `traci` reports it: its accumulated waiting
time (`traci.vehicle.getWaitingTime`) and whether it is currently halting
(counted by `traci.lane.getLastStepHaltingNumber`). -/
structure Vehicle where
  waitingTime : ℚ
  halting : Bool

/-- A lane is the list of vehicles currently on it
(`traci.lane.getLastStepVehicleIDs`). -/
abbrev Lane := List Vehicle

/-- Sensor query `traci.lane.getLastStepHaltingNumber`: the number of halting vehicles
on a lane. -/
def getLastStepHaltingNumber (l : Lane) : ℕ :=
  (l.filter (fun v => v.halting)).length

/-- Method `TrafficSimulation.get_lane_metrics` (traffic_simulation.py:58-74):
accumulate `total_queue`, `total_waiting` and `vehicle_count` over the
lanes exactly as the nested loops do, then return the total queue and the
average waiting time, guarding the division by `vehicle_count > 0`. -/
def get_lane_metrics (lanes : List Lane) : ℕ × ℚ :=
  let acc := lanes.foldl
    (fun acc lane =>
      let acc1 : ℕ × ℚ × ℕ := (acc.1 + getLastStepHaltingNumber lane, acc.2.1, acc.2.2)
      lane.foldl (fun a v => (a.1, a.2.1 + v.waitingTime, a.2.2 + 1)) acc1)
    ((0 : ℕ), (0 : ℚ), (0 : ℕ))
  let avgWaiting := if 0 < acc.2.2 then acc.2.1 / (acc.2.2 : ℚ) else 0
  (acc.1, avgWaiting)

/-- Total waiting time summed over every vehicle of every lane, stated
directly as a sum of sums (specification reading of the accumulation). -/
def totalWaitingTime (lanes : List Lane) : ℚ :=
  (lanes.map (fun l => (l.map (fun v => v.waitingTime)).sum)).sum

/-- Number of vehicles present across the lanes. -/
def vehicleCount (lanes : List Lane) : ℕ :=
  (lanes.map List.length).sum

/-- Total halting-vehicle count across the lanes. -/
def totalHalting (lanes : List Lane) : ℕ :=
  (lanes.map getLastStepHaltingNumber).sum

/-- The four signal phases of `TrafficSimulation.phases`
(traffic_simulation.py:19-24). -/
inductive Phase
  | NS_green
  | NS_yellow
  | EW_green
  | EW_yellow
deriving DecidableEq

/-- Signal colour shown to one approach direction. -/
inductive SignalColor
  | red
  | yellow
  | green
deriving DecidableEq

/-- Colour shown to the north-south direction in each phase, per the
phase table generated for the network (build_network.py: phase 0
NS=GREEN/EW=RED, phase 1 NS=YELLOW/EW=RED, phase 2 NS=RED/EW=GREEN,
phase 3 NS=RED/EW=YELLOW). -/
def nsSignal : Phase → SignalColor
  | Phase.NS_green => SignalColor.green
  | Phase.NS_yellow => SignalColor.yellow
  | Phase.EW_green => SignalColor.red
  | Phase.EW_yellow => SignalColor.red

/-- Colour shown to the east-west direction in each phase. -/
def ewSignal : Phase → SignalColor
  | Phase.NS_green => SignalColor.red
  | Phase.NS_yellow => SignalColor.red
  | Phase.EW_green => SignalColor.green
  | Phase.EW_yellow => SignalColor.yellow

/-- Constant `self.yellow_time = 3` (traffic_simulation.py:28). -/
def yellowTime : ℚ := 3

/-- What one tick of `run_simulation` can observe from the outside world:
the simulation clock (`traci.simulation.getTime()`) and the current
contents of the lanes of each direction (`self.lanes`). -/
structure TickInput where
  time : ℚ
  nsLanes : List Lane
  ewLanes : List Lane

/-- The sequencer state mutated by `run_simulation`: `self.current_phase`,
`self.phase_start_time`, the local `current_green_time`, and
the phase-change counter in `self.stats`. -/
structure SimState where
  currentPhase : Phase
  phaseStartTime : ℚ
  currentGreenTime : ℚ
  phaseChanges : ℕ

/-- Method `TrafficSimulation.compute_optimal_green_time`
(traffic_simulation.py:76-84): read the lane metrics of the direction and feed
them to the fuzzy controller. -/
def computeOptimalGreenTime (lanes : List Lane) : ℚ :=
  let m := get_lane_metrics lanes
  compute_green_time (m.1 : ℚ) m.2

/-- One iteration of the `run_simulation` loop body
(traffic_simulation.py:101-128), restricted to the sequencer state:
compute `elapsed`, then branch on the current phase exactly as the four
`if`/`elif` arms do.  Green phases expire into the yellow of the same
direction and bump `phase_changes`; yellow phases expire after `yellowTime`
into the green of the opposite direction with a freshly computed green
duration.  `set_traffic_light_phase` resets `phase_start_time` to the
current simulation time. -/
def tick (s : SimState) (inp : TickInput) : SimState :=
  let elapsed := inp.time - s.phaseStartTime
  match s.currentPhase with
  | Phase.NS_green =>
      if s.currentGreenTime ≤ elapsed then
        { s with currentPhase := Phase.NS_yellow, phaseStartTime := inp.time,
                 phaseChanges := s.phaseChanges + 1 }
      else s
  | Phase.NS_yellow =>
      if yellowTime ≤ elapsed then
        { currentPhase := Phase.EW_green, phaseStartTime := inp.time,
          currentGreenTime := computeOptimalGreenTime inp.ewLanes,
          phaseChanges := s.phaseChanges }
      else s
  | Phase.EW_green =>
      if s.currentGreenTime ≤ elapsed then
        { s with currentPhase := Phase.EW_yellow, phaseStartTime := inp.time,
                 phaseChanges := s.phaseChanges + 1 }
      else s
  | Phase.EW_yellow =>
      if yellowTime ≤ elapsed then
        { currentPhase := Phase.NS_green, phaseStartTime := inp.time,
          currentGreenTime := computeOptimalGreenTime inp.nsLanes,
          phaseChanges := s.phaseChanges }
      else s

/-- The sequencer state at the top of `run_simulation`: phase `NS_green`
(traffic_simulation.py:26), `phase_start_time = 0` (line 27),
`current_green_time = 30` (line 95) and zero recorded phase changes
(line 33). -/
def initState : SimState :=
  { currentPhase := Phase.NS_green, phaseStartTime := 0,
    currentGreenTime := 30, phaseChanges := 0 }

/-- Drive the sequencer through a whole list of ticks. -/
def runTicks (s : SimState) (inputs : List TickInput) : SimState :=
  inputs.foldl tick s

/-- The successor of each phase in the fixed signal cycle, as realised by
the four transition arms of `run_simulation`. -/
def nextPhase : Phase → Phase
  | Phase.NS_green => Phase.NS_yellow
  | Phase.NS_yellow => Phase.EW_green
  | Phase.EW_green => Phase.EW_yellow
  | Phase.EW_yellow => Phase.NS_green

/-! ## Helper lemmas -/

theorem trimf_nonneg (a b c x : ℚ) : 0 ≤ trimf a b c x := by
  unfold trimf
  split_ifs with h1 h2 h3
  · norm_num
  · exact div_nonneg (by linarith [h2.1]) (by linarith [h2.1, h2.2])
  · exact div_nonneg (by linarith [h3.2]) (by linarith [h3.1, h3.2])
  · exact le_refl 0

theorem strengthShort_nonneg (q w : ℚ) : 0 ≤ strengthShort q w :=
  le_max_of_le_left (le_min (trimf_nonneg _ _ _ _) (trimf_nonneg _ _ _ _))

theorem aggregatedMF_nonneg (q w z : ℚ) : 0 ≤ aggregatedMF q w z :=
  le_max_of_le_left
    (le_min (strengthShort_nonneg q w) (trimf_nonneg _ _ _ _))

theorem mem_greenUniverse_bounds (z : ℚ) (hz : z ∈ greenUniverse) :
    10 ≤ z ∧ z ≤ 90 := by
  fin_cases hz <;> norm_num

/-- The common output bound: `compute_green_time` always lands in the
`green_time` universe `[10, 90]`. -/
theorem green_time_bounds (q w : ℚ) :
    10 ≤ compute_green_time q w ∧ compute_green_time q w ≤ 90 := by
  unfold compute_green_time defuzzCentroid
  set m := aggregatedMF (clampQueue q) (clampWait w) with hm
  by_cases hden : (greenUniverse.map m).sum = 0
  · rw [if_pos hden]
    norm_num
  · rw [if_neg hden]
    have hnn : ∀ y ∈ greenUniverse.map m, 0 ≤ y := by
      intro y hy
      obtain ⟨z, _, rfl⟩ := List.mem_map.mp hy
      exact aggregatedMF_nonneg _ _ z
    have hden_pos : 0 < (greenUniverse.map m).sum :=
      lt_of_le_of_ne (List.sum_nonneg hnn) (Ne.symm hden)
    have hlow : 10 * (greenUniverse.map m).sum ≤
        (greenUniverse.map (fun z => z * m z)).sum := by
      rw [← List.sum_map_mul_left]
      exact List.sum_le_sum (fun z hz =>
        mul_le_mul_of_nonneg_right (mem_greenUniverse_bounds z hz).1
          (aggregatedMF_nonneg _ _ z))
    have hhigh : (greenUniverse.map (fun z => z * m z)).sum ≤
        90 * (greenUniverse.map m).sum := by
      rw [← List.sum_map_mul_left]
      exact List.sum_le_sum (fun z hz =>
        mul_le_mul_of_nonneg_right (mem_greenUniverse_bounds z hz).2
          (aggregatedMF_nonneg _ _ z))
    constructor
    · rw [le_div_iff₀ hden_pos]
      linarith
    · rw [div_le_iff₀ hden_pos]
      linarith

theorem clampQueue_idem (x : ℚ) : clampQueue (clampQueue x) = clampQueue x := by
  unfold clampQueue
  rcases le_total x 0 with h0 | h0 <;> rcases le_total x 50 with h50 | h50 <;>
    simp [min_def, max_def] <;> split_ifs <;> first | rfl | linarith

theorem clampWait_idem (x : ℚ) : clampWait (clampWait x) = clampWait x := by
  unfold clampWait
  rcases le_total x 0 with h0 | h0 <;> rcases le_total x 300 with h300 | h300 <;>
    simp [min_def, max_def] <;> split_ifs <;> first | rfl | linarith

theorem innerFold_eq (lane : Lane) (a : ℕ × ℚ × ℕ) :
    lane.foldl (fun a v => (a.1, a.2.1 + v.waitingTime, a.2.2 + 1)) a
      = (a.1, a.2.1 + (lane.map (fun v => v.waitingTime)).sum, a.2.2 + lane.length) := by
  induction lane generalizing a with
  | nil => simp
  | cons v t ih =>
      rw [List.foldl_cons, ih]
      refine Prod.ext rfl (Prod.ext ?_ ?_)
      · simp only [List.map_cons, List.sum_cons]
        ring
      · simp only [List.length_cons]
        omega

theorem outerFold_eq (lanes : List Lane) (a : ℕ × ℚ × ℕ) :
    lanes.foldl
      (fun acc lane =>
        let acc1 : ℕ × ℚ × ℕ := (acc.1 + getLastStepHaltingNumber lane, acc.2.1, acc.2.2)
        lane.foldl (fun a v => (a.1, a.2.1 + v.waitingTime, a.2.2 + 1)) acc1) a
      = (a.1 + totalHalting lanes, a.2.1 + totalWaitingTime lanes,
         a.2.2 + vehicleCount lanes) := by
  induction lanes generalizing a with
  | nil => simp [totalHalting, totalWaitingTime, vehicleCount]
  | cons lane t ih =>
      rw [List.foldl_cons, ih]
      simp only [innerFold_eq]
      refine Prod.ext ?_ (Prod.ext ?_ ?_)
      · simp only [totalHalting, List.map_cons, List.sum_cons]
        omega
      · simp only [totalWaitingTime, List.map_cons, List.sum_cons]
        ring
      · simp only [vehicleCount, List.map_cons, List.sum_cons]
        omega

theorem get_lane_metrics_eq (lanes : List Lane) :
    get_lane_metrics lanes
      = (totalHalting lanes,
         if 0 < vehicleCount lanes
         then totalWaitingTime lanes / (vehicleCount lanes : ℚ) else 0) := by
  simp [get_lane_metrics, outerFold_eq]

/-! ## Claim theorems -/

/-- C1: for every input pair, including boundary and out-of-range values
before clamping, `compute_green_time` returns a value in `[10, 90]`
inclusive. -/
theorem fuzzy_C1_bounded_output (q w : ℚ) :
    10 ≤ compute_green_time q w ∧ compute_green_time q w ≤ 90 :=
  green_time_bounds q w

/-- C2: under any sequence of ticks from the initial state, the phase is
one of the four defined states, and at most one of the two directions is
non-red: the NS signal or the EW signal is red at every reachable state. -/
theorem fuzzy_C2_safety_invariant (inputs : List TickInput) :
    ((runTicks initState inputs).currentPhase = Phase.NS_green ∨
     (runTicks initState inputs).currentPhase = Phase.NS_yellow ∨
     (runTicks initState inputs).currentPhase = Phase.EW_green ∨
     (runTicks initState inputs).currentPhase = Phase.EW_yellow) ∧
    (nsSignal (runTicks initState inputs).currentPhase = SignalColor.red ∨
     ewSignal (runTicks initState inputs).currentPhase = SignalColor.red) := by
  cases h : (runTicks initState inputs).currentPhase <;>
    simp [h, nsSignal, ewSignal]

/-- C3: if every rule fires with strength 0 — so all three aggregated
output strengths are 0 — the defuzzification stage of the engine does not
divide by zero but returns the midpoint 50 of the `green_time` universe. -/
theorem fuzzy_C3_all_zero_firing_midpoint (q w : ℚ)
    (hS : strengthShort q w = 0) (hM : strengthMedium q w = 0)
    (hL : strengthLong q w = 0) :
    defuzzCentroid (aggregatedMF q w) = 50 := by
  have hz : ∀ z : ℚ, aggregatedMF q w z = 0 := by
    intro z
    unfold aggregatedMF
    rw [hS, hM, hL]
    simp only [greenShortMF, greenMediumMF, greenLongMF]
    rw [min_eq_left (trimf_nonneg 10 10 30 z), min_eq_left (trimf_nonneg 25 50 75 z),
      min_eq_left (trimf_nonneg 60 90 90 z)]
    simp
  have hsum : (greenUniverse.map (aggregatedMF q w)).sum = 0 := by
    apply List.sum_eq_zero
    intro y hy
    obtain ⟨z, _, rfl⟩ := List.mem_map.mp hy
    exact hz z
  simp [defuzzCentroid, hsum]

/-- Witness for C3: at the (pre-clamping) input pair `(-5, 0)` every
antecedent degree of `queue_length` is 0, so all aggregated strengths are
0 and the defuzzification stage returns 50. -/
theorem fuzzy_C3_witness :
    strengthShort (-5) 0 = 0 ∧ strengthMedium (-5) 0 = 0 ∧
    strengthLong (-5) 0 = 0 ∧ defuzzCentroid (aggregatedMF (-5) 0) = 50 := by
  have hS : strengthShort (-5) 0 = 0 := by
    norm_num [strengthShort, queueLow, waitShort, waitMedium, trimf]
  have hM : strengthMedium (-5) 0 = 0 := by
    norm_num [strengthMedium, queueLow, queueMedium, queueHigh, waitShort,
      waitMedium, waitLong, trimf]
  have hL : strengthLong (-5) 0 = 0 := by
    norm_num [strengthLong, queueMedium, queueHigh, waitMedium, waitLong, trimf]
  exact ⟨hS, hM, hL, fuzzy_C3_all_zero_firing_midpoint (-5) 0 hS hM hL⟩

/-- C4: `compute_green_time` treats out-of-range measurements by
saturating them at the universe boundary: its value at any `(q, w)` equals
its value at the clamped pair. -/
theorem fuzzy_C4_clamping (q w : ℚ) :
    compute_green_time q w
      = compute_green_time (clampQueue q) (clampWait w) := by
  unfold compute_green_time
  rw [clampQueue_idem, clampWait_idem]

/-- C5: the yellow duration is the fixed constant 3; when a yellow phase
has lasted at least that long, the tick queries the fuzzy engine on the
measurements of the direction about to turn green, installs the result as
the current green duration, enters the green phase of that direction and
resets the phase start time; in particular, from the initial state
(`NS_green` at t=0 with green duration 30) a tick at t=30 enters
`NS_yellow` and a tick at t=33 enters `EW_green` with duration computed
from the EW measurements. -/
theorem fuzzy_C5_yellow_exit :
    yellowTime = 3 ∧
    (∀ (s : SimState) (inp : TickInput),
        s.currentPhase = Phase.NS_yellow →
        yellowTime ≤ inp.time - s.phaseStartTime →
        tick s inp = { currentPhase := Phase.EW_green, phaseStartTime := inp.time,
                       currentGreenTime := computeOptimalGreenTime inp.ewLanes,
                       phaseChanges := s.phaseChanges }) ∧
    (∀ (s : SimState) (inp : TickInput),
        s.currentPhase = Phase.EW_yellow →
        yellowTime ≤ inp.time - s.phaseStartTime →
        tick s inp = { currentPhase := Phase.NS_green, phaseStartTime := inp.time,
                       currentGreenTime := computeOptimalGreenTime inp.nsLanes,
                       phaseChanges := s.phaseChanges }) ∧
    (∀ (i1 i2 : TickInput), i1.time = 30 → i2.time = 33 →
        (tick initState i1).currentPhase = Phase.NS_yellow ∧
        (tick (tick initState i1) i2).currentPhase = Phase.EW_green ∧
        (tick (tick initState i1) i2).currentGreenTime
          = computeOptimalGreenTime i2.ewLanes) := by
  have hNS : ∀ (s : SimState) (inp : TickInput),
      s.currentPhase = Phase.NS_yellow →
      yellowTime ≤ inp.time - s.phaseStartTime →
      tick s inp = { currentPhase := Phase.EW_green, phaseStartTime := inp.time,
                     currentGreenTime := computeOptimalGreenTime inp.ewLanes,
                     phaseChanges := s.phaseChanges } := by
    intro s inp h1 h2
    simp only [tick, h1]
    rw [if_pos h2]
  have hEW : ∀ (s : SimState) (inp : TickInput),
      s.currentPhase = Phase.EW_yellow →
      yellowTime ≤ inp.time - s.phaseStartTime →
      tick s inp = { currentPhase := Phase.NS_green, phaseStartTime := inp.time,
                     currentGreenTime := computeOptimalGreenTime inp.nsLanes,
                     phaseChanges := s.phaseChanges } := by
    intro s inp h1 h2
    simp only [tick, h1]
    rw [if_pos h2]
  refine ⟨rfl, hNS, hEW, ?_⟩
  intro i1 i2 h1 h2
  have e1 : tick initState i1
      = { currentPhase := Phase.NS_yellow, phaseStartTime := i1.time,
          currentGreenTime := 30, phaseChanges := 1 } := by
    simp only [tick, initState]
    rw [if_pos (by rw [h1]; norm_num)]
  have e2 : tick (tick initState i1) i2
      = { currentPhase := Phase.EW_green, phaseStartTime := i2.time,
          currentGreenTime := computeOptimalGreenTime i2.ewLanes,
          phaseChanges := 1 } := by
    rw [hNS (tick initState i1) i2 (by rw [e1]) ?_, e1]
    rw [e1, h1, h2, yellowTime]
    norm_num
  exact ⟨by rw [e1], by rw [e2], by rw [e2]⟩

/-- Witness for C5: the concrete scenario with empty lanes, ticks at
t = 30 and t = 33. -/
theorem fuzzy_C5_witness :
    (tick initState ⟨30, [], []⟩).currentPhase = Phase.NS_yellow ∧
    (tick (tick initState ⟨30, [], []⟩) ⟨33, [], []⟩).currentPhase
      = Phase.EW_green ∧
    (tick (tick initState ⟨30, [], []⟩) ⟨33, [], []⟩).currentGreenTime
      = computeOptimalGreenTime [] :=
  fuzzy_C5_yellow_exit.2.2.2 ⟨30, [], []⟩ ⟨33, [], []⟩ rfl rfl

/-- C6: every transition the tick function makes follows the fixed cycle
`NS_green → NS_yellow → EW_green → EW_yellow → NS_green`, and after
exactly 4 steps of that cycle `NS_green` recurs. -/
theorem fuzzy_C6_cycle_closure :
    (∀ (s : SimState) (inp : TickInput),
        (tick s inp).currentPhase = s.currentPhase ∨
        (tick s inp).currentPhase = nextPhase s.currentPhase) ∧
    nextPhase Phase.NS_green = Phase.NS_yellow ∧
    nextPhase Phase.NS_yellow = Phase.EW_green ∧
    nextPhase Phase.EW_green = Phase.EW_yellow ∧
    nextPhase Phase.EW_yellow = Phase.NS_green ∧
    nextPhase (nextPhase (nextPhase (nextPhase Phase.NS_green)))
      = Phase.NS_green := by
  refine ⟨?_, rfl, rfl, rfl, rfl, rfl⟩
  intro s inp
  obtain ⟨p, st, g, pc⟩ := s
  cases p <;> simp only [tick, nextPhase] <;> split_ifs <;>
    first | (left ; rfl) | (right ; rfl)

/-- C8: the fuzzy engine is deterministic and free of observable
hidden-state mutation: the returned green time never depends on the
prior mutable state of the controller object, so repeated calls on one
instance and calls on a freshly constructed instance agree exactly. -/
theorem fuzzy_C8_deterministic (s t : ControllerState) (q w : ℚ) :
    (computeGreenTimeStateful s q w).1 = compute_green_time q w ∧
    (computeGreenTimeStateful s q w).1 = (computeGreenTimeStateful t q w).1 ∧
    computeGreenTimeStateful initialControllerState q w
      = computeGreenTimeStateful (computeGreenTimeStateful s q w).2 q w :=
  ⟨rfl, rfl, rfl⟩

/-- C9: `get_lane_metrics` never divides by zero: the total queue is the
halting-vehicle count, the average waiting time is total waiting time
over vehicle count when vehicles are present and 0 otherwise, and with no
vehicles on a direction it returns `(0, 0)` rather than faulting. -/
theorem fuzzy_C9_lane_metrics (lanes : List Lane) :
    (get_lane_metrics lanes).1 = totalHalting lanes ∧
    (0 < vehicleCount lanes →
      (get_lane_metrics lanes).2
        = totalWaitingTime lanes / (vehicleCount lanes : ℚ)) ∧
    (vehicleCount lanes = 0 → (get_lane_metrics lanes).2 = 0) ∧
    ((∀ l ∈ lanes, l = []) → get_lane_metrics lanes = (0, 0)) := by
  have hmain := get_lane_metrics_eq lanes
  refine ⟨by rw [hmain], ?_, ?_, ?_⟩
  · intro hpos
    rw [hmain]
    simp [hpos]
  · intro hzero
    rw [hmain]
    simp [hzero]
  · intro hempty
    have hv : vehicleCount lanes = 0 := by
      apply List.sum_eq_zero
      intro y hy
      obtain ⟨l, hl, rfl⟩ := List.mem_map.mp hy
      rw [hempty l hl]
      rfl
    have hh : totalHalting lanes = 0 := by
      apply List.sum_eq_zero
      intro y hy
      obtain ⟨l, hl, rfl⟩ := List.mem_map.mp hy
      rw [hempty l hl]
      rfl
    rw [hmain, hh, hv]
    norm_num

/-- Witness for C9: a direction with two vehicles averages their waiting
times; a direction with empty lanes yields `(0, 0)`. -/
theorem fuzzy_C9_witness :
    (get_lane_metrics [[⟨5, true⟩, ⟨7, false⟩], []]).2
      = totalWaitingTime [[⟨5, true⟩, ⟨7, false⟩], []]
        / (vehicleCount [[⟨5, true⟩, ⟨7, false⟩], []] : ℚ) ∧
    get_lane_metrics [[], []] = (0, 0) :=
  ⟨(fuzzy_C9_lane_metrics _).2.1 (by simp [vehicleCount]),
   (fuzzy_C9_lane_metrics _).2.2.2 (by simp)⟩

/-- C10: `phase_changes` is incremented exactly on green-to-yellow
transitions, is untouched by yellow ticks, and a full 4-transition cycle
from `NS_green` back to `NS_green` raises it by exactly 2, not 4. -/
theorem fuzzy_C10_phase_change_count :
    (∀ (s : SimState) (inp : TickInput), s.currentPhase = Phase.NS_green →
        s.currentGreenTime ≤ inp.time - s.phaseStartTime →
        (tick s inp).phaseChanges = s.phaseChanges + 1) ∧
    (∀ (s : SimState) (inp : TickInput), s.currentPhase = Phase.EW_green →
        s.currentGreenTime ≤ inp.time - s.phaseStartTime →
        (tick s inp).phaseChanges = s.phaseChanges + 1) ∧
    (∀ (s : SimState) (inp : TickInput),
        s.currentPhase = Phase.NS_yellow ∨ s.currentPhase = Phase.EW_yellow →
        (tick s inp).phaseChanges = s.phaseChanges) ∧
    (∀ (s : SimState) (i1 i2 i3 i4 : TickInput),
        s.currentPhase = Phase.NS_green →
        s.currentGreenTime ≤ i1.time - s.phaseStartTime →
        yellowTime ≤ i2.time - i1.time →
        computeOptimalGreenTime i2.ewLanes ≤ i3.time - i2.time →
        yellowTime ≤ i4.time - i3.time →
        (tick (tick (tick (tick s i1) i2) i3) i4).currentPhase
            = Phase.NS_green ∧
        (tick (tick (tick (tick s i1) i2) i3) i4).phaseChanges
            = s.phaseChanges + 2) := by
  refine ⟨?_, ?_, ?_, ?_⟩
  · intro s inp h1 h2
    simp only [tick, h1]
    rw [if_pos h2]
  · intro s inp h1 h2
    simp only [tick, h1]
    rw [if_pos h2]
  · intro s inp h1
    rcases h1 with h1 | h1 <;> simp only [tick, h1] <;> split_ifs <;> rfl
  · intro s i1 i2 i3 i4 hp h1 h2 h3 h4
    have e1 : tick s i1
        = { currentPhase := Phase.NS_yellow, phaseStartTime := i1.time,
            currentGreenTime := s.currentGreenTime,
            phaseChanges := s.phaseChanges + 1 } := by
      simp only [tick, hp]
      rw [if_pos h1]
    have e2 : tick (tick s i1) i2
        = { currentPhase := Phase.EW_green, phaseStartTime := i2.time,
            currentGreenTime := computeOptimalGreenTime i2.ewLanes,
            phaseChanges := s.phaseChanges + 1 } := by
      rw [e1]
      simp only [tick]
      rw [if_pos (by simpa using h2)]
    have e3 : tick (tick (tick s i1) i2) i3
        = { currentPhase := Phase.EW_yellow, phaseStartTime := i3.time,
            currentGreenTime := computeOptimalGreenTime i2.ewLanes,
            phaseChanges := s.phaseChanges + 2 } := by
      rw [e2]
      simp only [tick]
      rw [if_pos (by simpa using h3)]
    have e4 : tick (tick (tick (tick s i1) i2) i3) i4
        = { currentPhase := Phase.NS_green, phaseStartTime := i4.time,
            currentGreenTime := computeOptimalGreenTime i4.nsLanes,
            phaseChanges := s.phaseChanges + 2 } := by
      rw [e3]
      simp only [tick]
      rw [if_pos (by simpa using h4)]
    exact ⟨by rw [e4], by rw [e4]⟩

set_option maxHeartbeats 8000000 in
theorem cgt_at_5_30 : compute_green_time 5 30 = 1339 / 79 := by
  norm_num [compute_green_time, defuzzCentroid, greenUniverse, aggregatedMF,
    strengthShort, strengthMedium, strengthLong, queueLow, queueMedium, queueHigh,
    waitShort, waitMedium, waitLong, greenShortMF, greenMediumMF, greenLongMF,
    clampQueue, clampWait, trimf]

set_option maxHeartbeats 8000000 in
theorem cgt_at_45_30 : compute_green_time 45 30 = 50 := by
  norm_num [compute_green_time, defuzzCentroid, greenUniverse, aggregatedMF,
    strengthShort, strengthMedium, strengthLong, queueLow, queueMedium, queueHigh,
    waitShort, waitMedium, waitLong, greenShortMF, greenMediumMF, greenLongMF,
    clampQueue, clampWait, trimf]

set_option maxHeartbeats 8000000 in
theorem cgt_at_5_150 : compute_green_time 5 150 = 1339 / 79 := by
  norm_num [compute_green_time, defuzzCentroid, greenUniverse, aggregatedMF,
    strengthShort, strengthMedium, strengthLong, queueLow, queueMedium, queueHigh,
    waitShort, waitMedium, waitLong, greenShortMF, greenMediumMF, greenLongMF,
    clampQueue, clampWait, trimf]

set_option maxHeartbeats 8000000 in
theorem cgt_at_45_150 : compute_green_time 45 150 = 3257 / 41 := by
  norm_num [compute_green_time, defuzzCentroid, greenUniverse, aggregatedMF,
    strengthShort, strengthMedium, strengthLong, queueLow, queueMedium, queueHigh,
    waitShort, waitMedium, waitLong, greenShortMF, greenMediumMF, greenLongMF,
    clampQueue, clampWait, trimf]

set_option maxHeartbeats 8000000 in
theorem cgt_at_5_250 : compute_green_time 5 250 = 50 := by
  norm_num [compute_green_time, defuzzCentroid, greenUniverse, aggregatedMF,
    strengthShort, strengthMedium, strengthLong, queueLow, queueMedium, queueHigh,
    waitShort, waitMedium, waitLong, greenShortMF, greenMediumMF, greenLongMF,
    clampQueue, clampWait, trimf]

set_option maxHeartbeats 8000000 in
theorem cgt_at_45_250 : compute_green_time 45 250 = 5423 / 69 := by
  norm_num [compute_green_time, defuzzCentroid, greenUniverse, aggregatedMF,
    strengthShort, strengthMedium, strengthLong, queueLow, queueMedium, queueHigh,
    waitShort, waitMedium, waitLong, greenShortMF, greenMediumMF, greenLongMF,
    clampQueue, clampWait, trimf]

/-- C7: holding the waiting time fixed at the representative anchors 30,
150 and 250 seconds, moving the queue length from the low-region anchor 5
to the high-region anchor 45 never decreases the returned green time; in
particular `compute_green_time 5 30 ≤ compute_green_time 45 250`. -/
theorem fuzzy_C7_monotone_anchors :
    compute_green_time 5 30 ≤ compute_green_time 45 30 ∧
    compute_green_time 5 150 ≤ compute_green_time 45 150 ∧
    compute_green_time 5 250 ≤ compute_green_time 45 250 ∧
    compute_green_time 5 30 ≤ compute_green_time 45 250 := by
  rw [cgt_at_5_30, cgt_at_45_30, cgt_at_5_150, cgt_at_45_150, cgt_at_5_250,
    cgt_at_45_250]
  norm_num

/-- Witness for C10: from the initial state, firing ticks at t = 30, 33,
123 and 126 complete one cycle and leave the phase-change count at 2. -/
theorem fuzzy_C10_witness :
    (tick (tick (tick (tick initState ⟨30, [], []⟩) ⟨33, [], []⟩)
        ⟨123, [], []⟩) ⟨126, [], []⟩).currentPhase = Phase.NS_green ∧
    (tick (tick (tick (tick initState ⟨30, [], []⟩) ⟨33, [], []⟩)
        ⟨123, [], []⟩) ⟨126, [], []⟩).phaseChanges
      = initState.phaseChanges + 2 :=
  fuzzy_C10_phase_change_count.2.2.2 initState ⟨30, [], []⟩ ⟨33, [], []⟩
    ⟨123, [], []⟩ ⟨126, [], []⟩ rfl (by norm_num [initState])
    (by norm_num [yellowTime])
    (by
      have h : computeOptimalGreenTime ([] : List Lane)
          = compute_green_time 0 0 := by
        simp [computeOptimalGreenTime, get_lane_metrics]
      rw [h]
      calc compute_green_time 0 0 ≤ 90 := (green_time_bounds 0 0).2
        _ ≤ (123 : ℚ) - 33 := by norm_num)
    (by norm_num [yellowTime])

end FuzzyTraffic
